import Mathlib

/-!
Verification of the crew-roster dashboard's orchestration and analytics layer:
the crew/flight filter engine, the roster analytics derivations
(violations-by-category histogram, per-flight duty hours), the per-crew
detail drill-down orchestration, and the disruption-chat state machine.
Each definition is a shallow embedding of the corresponding TypeScript
function; timestamps are epoch milliseconds (the value produced by
`new Date(s).getTime()`), JS numbers are rationals, and fallible JS code
is embedded in `Except`.
-/

/-- A crew member record as delivered by the crew endpoint
(`CrewMember` interface in `CrewList.tsx` and the crew-detail modal). -/
structure CrewMember where
  Crew_ID : String
  Name : String
  Base : String
  Rank : String
  Qualification : String
  Aircraft_Type_License : String
  Leave_Start : Option String
  Leave_End : Option String
deriving DecidableEq

/-- A (Crew_ID, Crew_Rank) reference inside a flight assignment. -/
structure CrewRef where
  Crew_ID : String
  Crew_Rank : String
deriving DecidableEq

/-- Whether `small` occurs as a contiguous run at the start of `big`
(character-level building block for the JS substring test). -/
def startsWithChars : List Char → List Char → Bool
  | [], _ => true
  | _ :: _, [] => false
  | a :: as, b :: bs => a == b && startsWithChars as bs

/-- Whether `needle` occurs as a contiguous run anywhere inside `hay`. -/
def containsChars (needle : List Char) : List Char → Bool
  | [] => needle.isEmpty
  | c :: t => startsWithChars needle (c :: t) || containsChars needle t

/-- JS `s.includes(pattern)`: substring containment. -/
def jsIncludes (s pattern : String) : Bool :=
  containsChars pattern.toList s.toList

/-- The crew filter from the crew-management view (`filterCrewMembers`,
unnamed part_000-adjacent crew list file, lines 64-89): a text search over
Name/Crew_ID, then equality filters on Base and Rank, then a substring
filter on Aircraft_Type_License; a criterion is skipped when the search
term is empty or the categorical selection is the sentinel "all". -/
def filterCrewMembers (crewMembers : List CrewMember)
    (searchTerm selectedBase selectedRank selectedAircraft : String) :
    List CrewMember :=
  let f1 :=
    if searchTerm == "" then crewMembers
    else crewMembers.filter (fun crew =>
      jsIncludes crew.Name.toLower searchTerm.toLower ||
      jsIncludes crew.Crew_ID.toLower searchTerm.toLower)
  let f2 :=
    if selectedBase != "all" then f1.filter (fun crew => crew.Base == selectedBase)
    else f1
  let f3 :=
    if selectedRank != "all" then f2.filter (fun crew => crew.Rank == selectedRank)
    else f2
  if selectedAircraft != "all" then
    f3.filter (fun crew => jsIncludes crew.Aircraft_Type_License selectedAircraft)
  else f3

/-- The crew filter from `CrewList.tsx` lines 95-120; identical to
`filterCrewMembers` except that each categorical guard also checks the
selection string is non-empty (`baseFilter && baseFilter !== 'all'`). -/
def filterCrewMembersCL (crewMembers : List CrewMember)
    (searchTerm baseFilter rankFilter aircraftFilter : String) :
    List CrewMember :=
  let f1 :=
    if searchTerm == "" then crewMembers
    else crewMembers.filter (fun crew =>
      jsIncludes crew.Name.toLower searchTerm.toLower ||
      jsIncludes crew.Crew_ID.toLower searchTerm.toLower)
  let f2 :=
    if baseFilter != "" && baseFilter != "all" then
      f1.filter (fun crew => crew.Base == baseFilter)
    else f1
  let f3 :=
    if rankFilter != "" && rankFilter != "all" then
      f2.filter (fun crew => crew.Rank == rankFilter)
    else f2
  if aircraftFilter != "" && aircraftFilter != "all" then
    f3.filter (fun crew => jsIncludes crew.Aircraft_Type_License aircraftFilter)
  else f3

/-- C5: Filter identity law — with an empty search text and every
categorical criterion set to the sentinel "all", both crew filters return
the input collection unchanged, for every input collection. -/
theorem filterCrewMembers_identity (items : List CrewMember) :
    filterCrewMembers items "" "all" "all" "all" = items ∧
    filterCrewMembersCL items "" "all" "all" "all" = items := by
  constructor <;> rfl

/-- C6: Filter conjunction law — constraining Base and Rank together (search
text empty, aircraft unconstrained) equals the single pass keeping items
matching both criteria in their original relative order, and also equals the
order-preserving intersection of the two single-field filter results. -/
theorem filterCrewMembers_conjunction (items : List CrewMember) (a b : String)
    (ha : a ≠ "all") (hb : b ≠ "all") :
    filterCrewMembers items "" a b "all"
      = items.filter (fun c => c.Base == a && c.Rank == b) ∧
    filterCrewMembers items "" a b "all"
      = (filterCrewMembers items "" a "all" "all").filter
          (fun c => decide (c ∈ filterCrewMembers items "" "all" b "all")) := by
  have ha2 : (a != "all") = true := bne_iff_ne.mpr ha
  have hb2 : (b != "all") = true := bne_iff_ne.mpr hb
  have hmem : ∀ c ∈ items.filter (fun c => c.Base == a),
      (decide (c ∈ items.filter (fun c => c.Rank == b))) = (c.Rank == b) := by
    intro c hc
    have hci : c ∈ items := (List.mem_filter.mp hc).1
    by_cases h : (c.Rank == b) = true
    · simp [List.mem_filter, hci, h]
    · simp [List.mem_filter, hci, h]
  have hboth : filterCrewMembers items "" a b "all"
      = (items.filter (fun c => c.Base == a)).filter (fun c => c.Rank == b) := by
    simp [filterCrewMembers, ha2, hb2]
  have hredA : filterCrewMembers items "" a "all" "all"
      = items.filter (fun c => c.Base == a) := by
    simp [filterCrewMembers, ha2]
  have hredB : filterCrewMembers items "" "all" b "all"
      = items.filter (fun c => c.Rank == b) := by
    simp [filterCrewMembers, hb2]
  constructor
  · rw [hboth, List.filter_filter]
    exact List.filter_congr (fun x _ => Bool.and_comm _ _)
  · rw [hboth, hredA, hredB, List.filter_congr hmem]

/-- Witness for C6: the end-to-end scenario with three crew members of which
exactly one matches Base = "DEL" and Rank = "Captain". -/
theorem filterCrewMembers_conjunction_witness :
    filterCrewMembers
        [⟨"CP001", "Asha", "DEL", "Captain", "Line Checked", "A320neo", none, none⟩,
         ⟨"CP002", "Ben", "BOM", "Captain", "Line Checked", "A320neo", none, none⟩,
         ⟨"FO001", "Chitra", "DEL", "First Officer", "Base Check", "A321neo", none, none⟩]
        "" "DEL" "Captain" "all"
      = List.filter (fun c => c.Base == "DEL" && c.Rank == "Captain")
          [⟨"CP001", "Asha", "DEL", "Captain", "Line Checked", "A320neo", none, none⟩,
           ⟨"CP002", "Ben", "BOM", "Captain", "Line Checked", "A320neo", none, none⟩,
           ⟨"FO001", "Chitra", "DEL", "First Officer", "Base Check", "A321neo", none, none⟩] :=
  (filterCrewMembers_conjunction _ "DEL" "Captain" (by decide) (by decide)).1

/-- A crew record as it exists at the JavaScript runtime boundary: every
field may be absent (`undefined`/`null`), which the static TypeScript types
rule out but malformed server payloads do not. -/
structure CrewMemberJs where
  Crew_ID : Option String
  Name : Option String
  Base : Option String
  Rank : Option String
  Qualification : Option String
  Aircraft_Type_License : Option String
  Leave_Start : Option String
  Leave_End : Option String
deriving DecidableEq

/-- JS semantics of `crew.Name.toLowerCase().includes(t) ||
crew.Crew_ID.toLowerCase().includes(t)`: a method call on an absent field
throws a TypeError, and the disjunction short-circuits. -/
def searchPredJs (searchTerm : String) (crew : CrewMemberJs) :
    Except String Bool :=
  match crew.Name with
  | none => .error "TypeError"
  | some n =>
    if jsIncludes n.toLower searchTerm.toLower then .ok true
    else
      match crew.Crew_ID with
      | none => .error "TypeError"
      | some i => .ok (jsIncludes i.toLower searchTerm.toLower)

/-- JS semantics of `crew.Aircraft_Type_License.includes(sel)`. -/
def aircraftPredJs (sel : String) (crew : CrewMemberJs) : Except String Bool :=
  match crew.Aircraft_Type_License with
  | none => .error "TypeError"
  | some s => .ok (jsIncludes s sel)

/-- `Array.prototype.filter` under a predicate that can throw: elements are
tested left to right and the first exception aborts the whole call. -/
def exceptFilter {α : Type} (p : α → Except String Bool) :
    List α → Except String (List α)
  | [] => .ok []
  | a :: as =>
    match p a with
    | .error e => .error e
    | .ok b =>
      match exceptFilter p as with
      | .error e => .error e
      | .ok rest => .ok (if b then a :: rest else rest)

/-- The categorical and aircraft stages of the JS-semantics crew filter,
applied to the outcome `f1` of the text-search stage: Base/Rank use `===`
equality (an absent field compares unequal, never throws), while the
aircraft criterion calls `.includes` and can throw. -/
def filterCrewTailJs (f1 : List CrewMemberJs)
    (selectedBase selectedRank selectedAircraft : String) :
    Except String (List CrewMemberJs) :=
  let f2 :=
    if selectedBase != "all" then
      f1.filter (fun crew => crew.Base == some selectedBase)
    else f1
  let f3 :=
    if selectedRank != "all" then
      f2.filter (fun crew => crew.Rank == some selectedRank)
    else f2
  if selectedAircraft != "all" then
    exceptFilter (aircraftPredJs selectedAircraft) f3
  else .ok f3

/-- `filterCrewMembers` evaluated under JavaScript runtime semantics on
possibly malformed items: the search and aircraft criteria call string
methods on fields (throwing on absent fields), while the Base/Rank criteria
use `===` equality, for which an absent field simply compares unequal. -/
def filterCrewMembersJs (crewMembers : List CrewMemberJs)
    (searchTerm selectedBase selectedRank selectedAircraft : String) :
    Except String (List CrewMemberJs) :=
  match (if searchTerm == "" then Except.ok crewMembers
         else exceptFilter (searchPredJs searchTerm) crewMembers) with
  | .error e => .error e
  | .ok f1 => filterCrewTailJs f1 selectedBase selectedRank selectedAircraft

/-- Counterexample for C7: an item with an absent Name makes a non-empty
text search throw a TypeError instead of treating the item as
non-matching, so the filter is not total on malformed items. -/
theorem filterCrewMembersJs_throws_cex :
    filterCrewMembersJs
        [⟨some "CP001", none, some "DEL", some "Captain", some "Line Checked",
          some "A320neo", none, none⟩]
        "a" "all" "all" "all" = .error "TypeError" := by
  rfl

/-- A predicate that succeeds on every element of a list makes the
exception-aware filter succeed, with an output drawn from the input. -/
theorem exceptFilter_ok {α : Type} (p : α → Except String Bool) (l : List α)
    (h : ∀ x ∈ l, ∃ b, p x = .ok b) :
    ∃ out, exceptFilter p l = .ok out ∧ ∀ x ∈ out, x ∈ l := by
  induction l with
  | nil => exact ⟨[], rfl, by simp⟩
  | cons a as ih =>
    obtain ⟨b, hb⟩ := h a (List.mem_cons_self a as)
    obtain ⟨out, hout, hsub⟩ := ih (fun x hx => h x (List.mem_cons_of_mem a hx))
    refine ⟨if b then a :: out else out, by simp [exceptFilter, hb, hout], ?_⟩
    intro x hx
    by_cases hb2 : b = true
    · simp [hb2] at hx
      rcases hx with rfl | hx
      · exact List.mem_cons_self _ _
      · exact List.mem_cons_of_mem _ (hsub _ hx)
    · simp [hb2] at hx
      exact List.mem_cons_of_mem _ (hsub _ hx)

/-- The categorical/aircraft stages succeed on any list of items whose
aircraft-license field is present, and every survivor came from the input
and satisfies a constrained Base criterion. -/
theorem filterCrewTailJs_ok (items f1 : List CrewMemberJs)
    (base rank aircraft : String)
    (hsub : ∀ x ∈ f1, x ∈ items)
    (h : ∀ m ∈ items, m.Aircraft_Type_License.isSome) :
    ∃ out, filterCrewTailJs f1 base rank aircraft = .ok out
      ∧ ∀ m ∈ out, m ∈ items ∧ (base ≠ "all" → m.Base = some base) := by
  have hf2 : ∀ x ∈ (if base != "all" then
                      f1.filter (fun crew => crew.Base == some base)
                    else f1),
      x ∈ items ∧ (base ≠ "all" → x.Base = some base) := by
    intro x hx
    by_cases hb : base = "all"
    · have hb2 : ¬ ((base != "all") = true) := by simp [hb]
      rw [if_neg hb2] at hx
      exact ⟨hsub x hx, fun hne => absurd hb hne⟩
    · have hb2 : (base != "all") = true := bne_iff_ne.mpr hb
      rw [if_pos hb2] at hx
      obtain ⟨hx1, hx2⟩ := List.mem_filter.mp hx
      exact ⟨hsub x hx1, fun _ => eq_of_beq hx2⟩
  have hf3 : ∀ x ∈ (if rank != "all" then
                      (if base != "all" then
                         f1.filter (fun crew => crew.Base == some base)
                       else f1).filter (fun crew => crew.Rank == some rank)
                    else if base != "all" then
                      f1.filter (fun crew => crew.Base == some base)
                    else f1),
      x ∈ items ∧ (base ≠ "all" → x.Base = some base) := by
    intro x hx
    by_cases hr : ((rank != "all") = true)
    · rw [if_pos hr] at hx
      exact hf2 x (List.mem_filter.mp hx).1
    · rw [if_neg hr] at hx
      exact hf2 x hx
  by_cases hair : ((aircraft != "all") = true)
  · have hap : ∀ x ∈ (if rank != "all" then
                        (if base != "all" then
                           f1.filter (fun crew => crew.Base == some base)
                         else f1).filter (fun crew => crew.Rank == some rank)
                      else if base != "all" then
                        f1.filter (fun crew => crew.Base == some base)
                      else f1),
        ∃ b, aircraftPredJs aircraft x = .ok b := by
      intro x hx
      obtain ⟨hxi, _⟩ := hf3 x hx
      obtain ⟨s, hs⟩ := Option.isSome_iff_exists.mp (h x hxi)
      exact ⟨jsIncludes s aircraft, by simp [aircraftPredJs, hs]⟩
    obtain ⟨out, hout, houtsub⟩ := exceptFilter_ok (aircraftPredJs aircraft) _ hap
    refine ⟨out, ?_, fun m hm => hf3 m (houtsub m hm)⟩
    simp only [filterCrewTailJs]
    rw [if_pos hair]
    exact hout
  · refine ⟨_, ?_, hf3⟩
    simp only [filterCrewTailJs]
    rw [if_neg hair]

/-- C7 (amended): the filter never throws provided every item carries the
fields the string-searching criteria call methods on (Name, Crew_ID,
Aircraft_Type_License); the equality criteria (Base, Rank) never throw and
treat an absent field as non-matching, so every survivor of a constrained
Base criterion actually has that Base present and equal. -/
theorem filterCrewMembersJs_total_on_present (items : List CrewMemberJs)
    (searchTerm base rank aircraft : String)
    (h : ∀ m ∈ items,
      m.Name.isSome ∧ m.Crew_ID.isSome ∧ m.Aircraft_Type_License.isSome) :
    ∃ out, filterCrewMembersJs items searchTerm base rank aircraft = .ok out
      ∧ ∀ m ∈ out, m ∈ items ∧ (base ≠ "all" → m.Base = some base) := by
  have hlic : ∀ m ∈ items, m.Aircraft_Type_License.isSome :=
    fun m hm => (h m hm).2.2
  by_cases hs : ((searchTerm == "") = true)
  · obtain ⟨out, hout, hmem⟩ :=
      filterCrewTailJs_ok items items base rank aircraft (fun x hx => hx) hlic
    refine ⟨out, ?_, hmem⟩
    simp only [filterCrewMembersJs]
    rw [if_pos hs]
    exact hout
  · have hsp : ∀ m ∈ items, ∃ b, searchPredJs searchTerm m = .ok b := by
      intro m hm
      obtain ⟨hn, hi, _⟩ := h m hm
      obtain ⟨n, hn⟩ := Option.isSome_iff_exists.mp hn
      obtain ⟨i, hi⟩ := Option.isSome_iff_exists.mp hi
      by_cases hc : jsIncludes n.toLower searchTerm.toLower = true
      · exact ⟨true, by simp [searchPredJs, hn, hc]⟩
      · exact ⟨jsIncludes i.toLower searchTerm.toLower,
          by simp [searchPredJs, hn, hi, hc]⟩
    obtain ⟨f1, hf1, hf1sub⟩ := exceptFilter_ok (searchPredJs searchTerm) items hsp
    obtain ⟨out, hout, hmem⟩ :=
      filterCrewTailJs_ok items f1 base rank aircraft hf1sub hlic
    refine ⟨out, ?_, hmem⟩
    simp only [filterCrewMembersJs]
    rw [if_neg hs, hf1]
    exact hout

/-- Witness for C7 (amended): a concrete well-formed item passes through the
filter without an exception. -/
theorem filterCrewMembersJs_total_witness :
    ∃ out,
      filterCrewMembersJs
          [⟨some "CP001", some "Asha", some "DEL", some "Captain",
            some "Line Checked", some "A320neo", none, none⟩]
          "as" "DEL" "all" "A320neo" = .ok out
        ∧ ∀ m ∈ out,
            m ∈ [⟨some "CP001", some "Asha", some "DEL", some "Captain",
                  some "Line Checked", some "A320neo", none, none⟩]
            ∧ ("DEL" ≠ "all" → m.Base = some "DEL") :=
  filterCrewMembersJs_total_on_present _ "as" "DEL" "all" "A320neo" (by decide)

/-- A compliance violation from a roster response. -/
structure Violation where
  type : String
  category : String
  message : String
deriving DecidableEq

/-- Server-computed optimization metrics, passed through for display. -/
structure OptimizationMetrics where
  total_assignments : Nat
  crew_utilization : ℚ
  violation_count : Nat
  fitness_score : ℚ
  fairness_score : ℚ
  max_duty_hours : ℚ
  min_duty_hours : ℚ
  avg_duty_hours : ℚ
  std_dev_duty_hours : ℚ
deriving DecidableEq

/-- A flight entry of the generated roster (`FlightData` in the dashboard
index view). `Duty_Start`/`Duty_End` are the epoch-millisecond values that
`new Date(s).getTime()` produces from the timestamp strings. -/
structure FlightData where
  Date : String
  Flight_Number : String
  Duty_Start : Int
  Duty_End : Int
  Aircraft_Type : String
  Origin : String
  Destination : String
  Duration : String
  Crew_Members : List CrewRef
deriving DecidableEq

/-- The response of the roster-generation endpoint. -/
structure RosterResponse where
  roster : List FlightData
  fitness_score : ℚ
  violations : List Violation
  optimization_metrics : OptimizationMetrics
deriving DecidableEq

/-- One step of `acc[violation.category] = (acc[violation.category] || 0) + 1`
on a JS object modelled as an insertion-ordered association list: an existing
key is incremented in place, a new key is appended at the end. -/
def bumpCategory : List (String × Nat) → String → List (String × Nat)
  | [], k => [(k, 1)]
  | (k0, v) :: rest, k =>
    if k0 == k then (k0, v + 1) :: rest else (k0, v) :: bumpCategory rest k

/-- `getViolationsByCategory` (dashboard index view, lines 211-220): fold the
violation list into a category → count object, then emit its entries as
(name, value) pairs in insertion order; an absent roster yields `[]`. -/
def getViolationsByCategory (rosterData : Option RosterResponse) :
    List (String × Nat) :=
  match rosterData with
  | none => []
  | some rd => rd.violations.foldl (fun acc v => bumpCategory acc v.category) []

/-- Total of the counts of a category histogram. -/
def sumVals (l : List (String × Nat)) : Nat :=
  (l.map Prod.snd).sum

/-- Incrementing one category raises the histogram total by exactly one. -/
theorem sumVals_bumpCategory (acc : List (String × Nat)) (k : String) :
    sumVals (bumpCategory acc k) = sumVals acc + 1 := by
  induction acc with
  | nil => rfl
  | cons p rest ih =>
    obtain ⟨k0, v⟩ := p
    by_cases h : (k0 == k) = true
    · simp [bumpCategory, h, sumVals]
      omega
    · simp [bumpCategory, h, sumVals] at ih ⊢
      omega

/-- Folding a violation list over `bumpCategory` adds its length to the
histogram total. -/
theorem sumVals_fold (vs : List Violation) (acc : List (String × Nat)) :
    sumVals (vs.foldl (fun acc v => bumpCategory acc v.category) acc)
      = sumVals acc + vs.length := by
  induction vs generalizing acc with
  | nil => simp
  | cons v rest ih =>
    simp only [List.foldl_cons, ih, sumVals_bumpCategory, List.length_cons]
    omega

/-- C3: the violations-by-category derivation is fully covering — for every
roster response the histogram counts sum to the violation-list length, and
an empty violation list yields an empty histogram. -/
theorem getViolationsByCategory_covering (rd : RosterResponse) :
    sumVals (getViolationsByCategory (some rd)) = rd.violations.length ∧
    (rd.violations = [] → getViolationsByCategory (some rd) = []) := by
  constructor
  · show sumVals (rd.violations.foldl (fun acc v => bumpCategory acc v.category) [])
      = rd.violations.length
    rw [sumVals_fold]
    simp [sumVals]
  · intro h
    simp [getViolationsByCategory, h]

/-- Witness for C3: the spec's example list with categories
Rest, Rest, DutyTime has a histogram summing to 3, and an empty violation
list yields the empty histogram. -/
theorem getViolationsByCategory_covering_witness :
    sumVals (getViolationsByCategory (some
        ⟨[], 0,
         [⟨"t1", "Rest", "m1"⟩, ⟨"t2", "Rest", "m2"⟩, ⟨"t3", "DutyTime", "m3"⟩],
         ⟨0, 0, 0, 0, 0, 0, 0, 0, 0⟩⟩)) = 3 ∧
    getViolationsByCategory (some ⟨[], 0, [], ⟨0, 0, 0, 0, 0, 0, 0, 0, 0⟩⟩) = [] :=
  ⟨(getViolationsByCategory_covering _).1,
   (getViolationsByCategory_covering _).2 rfl⟩

/-- One bar of the duty-hours chart: flight number, duty duration in hours
rounded to 2 decimal places, and the route label. -/
structure DutyEntry where
  flight : String
  hours : ℚ
  route : String
deriving DecidableEq

/-- JS `Math.round`: nearest integer, ties towards positive infinity. -/
def jsRound (q : ℚ) : ℤ :=
  Int.floor (q + 1/2)

/-- The per-flight derivation inside `getDutyHoursData` (dashboard index
view, lines 222-237): duty duration in milliseconds divided by
1000·60·60, rounded to 2 decimals via `Math.round(hours * 100) / 100`. -/
def dutyHoursEntry (flight : FlightData) : DutyEntry :=
  let hours : ℚ :=
    ((flight.Duty_End : ℚ) - (flight.Duty_Start : ℚ)) / (1000 * 60 * 60)
  { flight := flight.Flight_Number
    hours := (jsRound (hours * 100) : ℚ) / 100
    route := flight.Origin ++ "-" ++ flight.Destination }

/-- `getDutyHoursData`: map the roster to per-flight entries and keep the
first 10 for display; an absent roster yields `[]`. -/
def getDutyHoursData (rosterData : Option RosterResponse) : List DutyEntry :=
  match rosterData with
  | none => []
  | some rd => (rd.roster.map dutyHoursEntry).take 10

/-- Counterexample for C4: a flight whose duty window is 1 millisecond has
Duty_Start strictly below Duty_End, yet the derived duty hours round to 0,
not a strictly positive value. -/
theorem getDutyHoursData_positive_duration_rounds_to_zero :
    ((⟨"2023-10-01", "6E101", 0, 1, "A320neo", "DEL", "BOM", "0:00", []⟩ :
        FlightData).Duty_Start
      < (⟨"2023-10-01", "6E101", 0, 1, "A320neo", "DEL", "BOM", "0:00", []⟩ :
        FlightData).Duty_End) ∧
    (getDutyHoursData (some
        ⟨[⟨"2023-10-01", "6E101", 0, 1, "A320neo", "DEL", "BOM", "0:00", []⟩],
         0, [], ⟨0, 0, 0, 0, 0, 0, 0, 0, 0⟩⟩)).map DutyEntry.hours = [0] := by
  constructor
  · decide
  · simp only [getDutyHoursData, dutyHoursEntry, jsRound, List.map_cons,
      List.map_nil, List.take_succ_cons, List.take_nil, List.map]
    norm_num [Int.floor_eq_zero_iff]

/-- C4 (amended): for every flight the derived duty hours equal
(Duty_End − Duty_Start)/3600000 rounded to 2 decimal places with
`Math.round` semantics (floor of x·100 + 1/2, divided by 100); equal
timestamps give exactly 0; a nonnegative duty window gives nonnegative
hours; and strict positivity holds once the duty window is at least
18000 ms (half of 0.01 h) — shorter positive windows round to 0. -/
theorem dutyHoursEntry_spec (f : FlightData) :
    (dutyHoursEntry f).hours
        = (jsRound (((f.Duty_End : ℚ) - (f.Duty_Start : ℚ)) / 3600000 * 100) : ℚ)
            / 100
    ∧ (f.Duty_Start = f.Duty_End → (dutyHoursEntry f).hours = 0)
    ∧ (f.Duty_Start ≤ f.Duty_End → 0 ≤ (dutyHoursEntry f).hours)
    ∧ (f.Duty_Start + 18000 ≤ f.Duty_End → 0 < (dutyHoursEntry f).hours) := by
  refine ⟨?_, ?_, ?_, ?_⟩
  · norm_num [dutyHoursEntry]
  · intro h
    simp only [dutyHoursEntry, jsRound, h, sub_self, zero_div, zero_mul,
      zero_add]
    norm_num [Int.floor_eq_zero_iff]
  · intro h
    have hd : (0 : ℚ) ≤ (f.Duty_End : ℚ) - (f.Duty_Start : ℚ) := by
      have h2 : ((f.Duty_Start : ℚ)) ≤ ((f.Duty_End : ℚ)) := by exact_mod_cast h
      linarith
    have hx : (0 : ℚ)
        ≤ ((f.Duty_End : ℚ) - (f.Duty_Start : ℚ)) / (1000 * 60 * 60) * 100
            + 1/2 := by
      have hq : (0 : ℚ)
          ≤ ((f.Duty_End : ℚ) - (f.Duty_Start : ℚ)) / (1000 * 60 * 60) :=
        div_nonneg hd (by norm_num)
      linarith
    have hfl : (0 : ℤ) ≤ jsRound
        (((f.Duty_End : ℚ) - (f.Duty_Start : ℚ)) / (1000 * 60 * 60) * 100) :=
      Int.le_floor.mpr (by exact_mod_cast hx)
    have hflq : (0 : ℚ) ≤ (jsRound
        (((f.Duty_End : ℚ) - (f.Duty_Start : ℚ)) / (1000 * 60 * 60) * 100) : ℚ) := by
      exact_mod_cast hfl
    simp only [dutyHoursEntry]
    exact div_nonneg hflq (by norm_num)
  · intro h
    have hd : (18000 : ℚ) ≤ (f.Duty_End : ℚ) - (f.Duty_Start : ℚ) := by
      have h2 : (18000 : ℤ) ≤ f.Duty_End - f.Duty_Start := by omega
      exact_mod_cast h2
    have hx : (1 : ℚ)
        ≤ ((f.Duty_End : ℚ) - (f.Duty_Start : ℚ)) / (1000 * 60 * 60) * 100
            + 1/2 := by
      have h3 : (1/2 : ℚ)
          ≤ ((f.Duty_End : ℚ) - (f.Duty_Start : ℚ)) / (1000 * 60 * 60) * 100 := by
        rw [div_mul_eq_mul_div, le_div_iff₀ (by norm_num : (0:ℚ) < 1000 * 60 * 60)]
        linarith
      linarith
    have hfl : (1 : ℤ) ≤ jsRound
        (((f.Duty_End : ℚ) - (f.Duty_Start : ℚ)) / (1000 * 60 * 60) * 100) :=
      Int.le_floor.mpr (by exact_mod_cast hx)
    have hflq : (1 : ℚ) ≤ (jsRound
        (((f.Duty_End : ℚ) - (f.Duty_Start : ℚ)) / (1000 * 60 * 60) * 100) : ℚ) := by
      exact_mod_cast hfl
    simp only [dutyHoursEntry]
    exact div_pos (lt_of_lt_of_le zero_lt_one hflq) (by norm_num)

/-- Witness for C4 (amended): a 2-hour duty window yields strictly positive
derived hours. -/
theorem dutyHoursEntry_spec_witness :
    0 < (dutyHoursEntry
        ⟨"2023-10-01", "6E102", 0, 7200000, "A320neo", "DEL", "BOM", "2:00",
         []⟩).hours :=
  (dutyHoursEntry_spec _).2.2.2 (by decide)

/-- The role of a chat turn: `'user' | 'bot'`. -/
inductive MsgRole where
  | user
  | bot
deriving DecidableEq

/-- A chat turn (`ChatMessage` in the disruption chatbot): id, role,
content, timestamp (modelled as the `Nat` value of `Date.now()`), and an
optional suggested-action list. -/
structure ChatMessage where
  id : String
  type : MsgRole
  content : String
  timestamp : Nat
  suggestedActions : Option (List String)
deriving DecidableEq

/-- The chatbot component state: the message list, the input-box text and
the pending flag (`isLoading`). -/
structure ChatState where
  messages : List ChatMessage
  currentMessage : String
  isLoading : Bool
deriving DecidableEq

/-- A request issued to the disruption-chat endpoint (its `context` payload
is always the empty object, so only the message text is recorded). -/
structure ChatRequest where
  message : String
deriving DecidableEq

/-- The body of a successful disruption-chat response. -/
structure ChatResponseData where
  response : String
  suggested_actions : Option (List String)
deriving DecidableEq

/-- JS `s.trim()`: strip leading and trailing whitespace, modelled over the
character list so it is kernel-computable. -/
def jsTrim (s : String) : String :=
  String.mk
    (((s.toList.dropWhile Char.isWhitespace).reverse.dropWhile
        Char.isWhitespace).reverse)

/-- An apostrophe character, kept out of string literals. -/
def apostrophe : String :=
  String.singleton (Char.ofNat 39)

/-- The fixed fallback assistant apology appended when the chat request
fails. -/
def fallbackChatContent : String :=
  "I apologize, but I" ++ apostrophe
    ++ "m having trouble processing your request right now. Please try again later."

/-- `handleSendMessage` (disruption chatbot, lines 45-97) as a pure step:
the guard rejects a blank (after trim) input or a pending request as a
no-op; otherwise the user turn is appended optimistically, the input box
cleared, exactly one request issued, and the single outcome of that
request appends either the assistant turn built from the response or the
fixed fallback apology, resetting `isLoading`. `now` stands for the
`Date.now()` clock reading used for ids and timestamps. -/
def handleSendMessage (s : ChatState) (now : Nat)
    (outcome : Except Unit ChatResponseData) : ChatState × List ChatRequest :=
  if jsTrim s.currentMessage == "" || s.isLoading then (s, [])
  else
    let userMessage : ChatMessage :=
      ⟨toString now, .user, s.currentMessage, now, none⟩
    let afterUser := s.messages ++ [userMessage]
    match outcome with
    | .ok data =>
      let botMessage : ChatMessage :=
        ⟨toString (now + 1), .bot, data.response, now, data.suggested_actions⟩
      (⟨afterUser ++ [botMessage], "", false⟩, [⟨s.currentMessage⟩])
    | .error _ =>
      let errorMessage : ChatMessage :=
        ⟨toString (now + 1), .bot, fallbackChatContent, now, none⟩
      (⟨afterUser ++ [errorMessage], "", false⟩, [⟨s.currentMessage⟩])

/-- C8: chat submit no-op laws — submitting while the trimmed input text is
empty, or while a request is pending, leaves the entire state (in
particular the message list) unchanged and issues no request. -/
theorem handleSendMessage_noop (s : ChatState) (now : Nat)
    (outcome : Except Unit ChatResponseData) :
    (jsTrim s.currentMessage = "" → handleSendMessage s now outcome = (s, [])) ∧
    (s.isLoading = true → handleSendMessage s now outcome = (s, [])) := by
  constructor
  · intro h
    simp [handleSendMessage, h]
  · intro h
    simp [handleSendMessage, h]

/-- Witness for C8: a whitespace-only input and a pending-state submit are
both no-ops on concrete states. -/
theorem handleSendMessage_noop_witness :
    handleSendMessage ⟨[], " ", false⟩ 5 (.error ()) = (⟨[], " ", false⟩, []) ∧
    handleSendMessage ⟨[], "hello", true⟩ 5 (.error ()) = (⟨[], "hello", true⟩, []) :=
  ⟨(handleSendMessage_noop ⟨[], " ", false⟩ 5 (.error ())).1 (by decide),
   (handleSendMessage_noop ⟨[], "hello", true⟩ 5 (.error ())).2 rfl⟩

/-- C9: on chat request failure, exactly one fixed fallback assistant
apology is appended after the optimistically kept user turn, `isLoading`
is reset to false, and exactly one request was issued (no retry). -/
theorem handleSendMessage_failure (s : ChatState) (now : Nat)
    (h1 : ¬ jsTrim s.currentMessage = "") (h2 : s.isLoading = false) :
    handleSendMessage s now (.error ())
      = (⟨s.messages
            ++ [⟨toString now, .user, s.currentMessage, now, none⟩,
                ⟨toString (now + 1), .bot, fallbackChatContent, now, none⟩],
          "", false⟩,
         [⟨s.currentMessage⟩]) := by
  have hb : (jsTrim s.currentMessage == "") = false := by simp [h1]
  simp [handleSendMessage, hb, h2]

/-- Witness for C9: a concrete failing submit appends the user turn and the
apology. -/
theorem handleSendMessage_failure_witness :
    handleSendMessage ⟨[], "help", false⟩ 7 (.error ())
      = (⟨[⟨toString 7, .user, "help", 7, none⟩,
           ⟨toString 8, .bot, fallbackChatContent, 7, none⟩],
          "", false⟩,
         [⟨"help"⟩]) :=
  handleSendMessage_failure ⟨[], "help", false⟩ 7 (by decide) rfl

/-- `handleSuggestedAction` (disruption chatbot, lines 106-115): look the
action id up in the fixed three-entry table, fall back to the raw action
string, and stage the result in the input box. -/
def handleSuggestedAction (s : ChatState) (action : String) :
    ChatState × List ChatRequest :=
  let message :=
    if action == "analyze_disruption" then
      "Please analyze the current disruption situation and provide recommendations."
    else if action == "view_roster" then
      "Show me the current roster status and any conflicts."
    else if action == "check_compliance" then
      "Check DGCA compliance for the current roster assignments."
    else action
  ({ s with currentMessage := message }, [])

/-- C10: `handleSuggestedAction` is pure input staging — it never touches
the message list or the pending flag and issues no request; the three
known ids map to their canned query strings and any other action string is
staged verbatim. -/
theorem handleSuggestedAction_pure_staging (s : ChatState) (action : String) :
    ((handleSuggestedAction s action).1.messages = s.messages
      ∧ (handleSuggestedAction s action).1.isLoading = s.isLoading
      ∧ (handleSuggestedAction s action).2 = [])
    ∧ (handleSuggestedAction s "analyze_disruption").1.currentMessage
        = "Please analyze the current disruption situation and provide recommendations."
    ∧ (handleSuggestedAction s "view_roster").1.currentMessage
        = "Show me the current roster status and any conflicts."
    ∧ (handleSuggestedAction s "check_compliance").1.currentMessage
        = "Check DGCA compliance for the current roster assignments."
    ∧ (action ≠ "analyze_disruption" → action ≠ "view_roster" →
        action ≠ "check_compliance" →
        (handleSuggestedAction s action).1.currentMessage = action) := by
  refine ⟨⟨?_, ?_, ?_⟩, ?_, ?_, ?_, ?_⟩
  · simp [handleSuggestedAction]
  · simp [handleSuggestedAction]
  · simp [handleSuggestedAction]
  · simp [handleSuggestedAction]
  · simp [handleSuggestedAction]
  · simp [handleSuggestedAction]
  · intro h1 h2 h3
    have e1 : (action == "analyze_disruption") = false := by simp [h1]
    have e2 : (action == "view_roster") = false := by simp [h2]
    have e3 : (action == "check_compliance") = false := by simp [h3]
    simp [handleSuggestedAction, e1, e2, e3]

/-- Witness for C10: an unknown action string is staged verbatim. -/
theorem handleSuggestedAction_witness :
    (handleSuggestedAction ⟨[], "", false⟩ "reassign_crew").1.currentMessage
      = "reassign_crew" :=
  (handleSuggestedAction_pure_staging ⟨[], "", false⟩ "reassign_crew").2.2.2.2
    (by decide) (by decide) (by decide)

/-- One per-crew schedule-history row. -/
structure CrewSchedule where
  roster_id : Int
  start_date : String
  end_date : String
  violation_count : Nat
deriving DecidableEq

/-- One crew scheduling preference. -/
structure CrewPreference where
  type : String
  detail : String
  priority : String
deriving DecidableEq

/-- A flight assignment row of a stored roster detail. -/
structure FlightAssignment where
  Date : String
  Flight_Number : String
  Duty_Start : String
  Duty_End : String
  Aircraft_Type : String
  Origin : String
  Destination : String
  Duration : String
  Crew_Members : List CrewRef
deriving DecidableEq

/-- A violation row of the crew-detail violations tab (derived, not
fetched). -/
structure ViolationDetail where
  type : String
  description : String
  severity : String
  flight_number : Option String
  date : Option String
deriving DecidableEq

/-- One row of the roster-history response. -/
structure RosterHistoryItem where
  id : Int
  created_at : String
  start_date : String
  end_date : String
  fitness_score : ℚ
  violation_count : Nat
deriving DecidableEq

/-- Response of the crew-list endpoint. -/
structure CrewListResponse where
  crew_members : List CrewMember
deriving DecidableEq

/-- Response of the per-crew schedule endpoint; the `schedules` field may be
absent (the code reads `scheduleData.schedules || []`). -/
structure ScheduleResponse where
  schedules : Option (List CrewSchedule)
deriving DecidableEq

/-- Response of the per-crew preferences endpoint; `preferences` may be
absent. -/
structure PreferencesResponse where
  preferences : Option (List CrewPreference)
deriving DecidableEq

/-- Response of the roster-history endpoint; `rosters` may be absent. -/
structure HistoryResponse where
  rosters : Option (List RosterHistoryItem)
deriving DecidableEq

/-- Response of the roster-detail endpoint; `roster_data` may be absent
(the code reads `rosterData.roster_data?.filter(...) || []`). -/
structure RosterDetailResponse where
  roster_id : Int
  roster_data : Option (List FlightAssignment)
deriving DecidableEq

/-- The state of the crew-detail modal (`CrewDetailsModal`, first version in
`SystemStatus.tsx`): profile, schedule history, preferences, derived flight
assignments, derived violations, the cached latest roster and the loading
flag. -/
structure ModalState where
  crewDetails : Option CrewMember
  schedule : List CrewSchedule
  preferences : List CrewPreference
  flightAssignments : List FlightAssignment
  violations : List ViolationDetail
  latestRoster : Option RosterDetailResponse
  loading : Bool
deriving DecidableEq

/-- The modal state before any fetch. -/
def initialModalState : ModalState :=
  ⟨none, [], [], [], [], none, false⟩

/-- The flights of a roster detail on which the given crew member appears
(`rosterData.roster_data?.filter(flight =>
flight.Crew_Members.some(member => member.Crew_ID === crewId)) || []`). -/
def crewFlightsFor (det : RosterDetailResponse) (crewId : String) :
    List FlightAssignment :=
  (det.roster_data.getD []).filter
    (fun flight => flight.Crew_Members.any (fun member => member.Crew_ID == crewId))

/-- The four cyclic mock violation type names. -/
def mockViolationTypes : List String :=
  ["Rest Period", "Duty Time", "Flight Time", "Minimum Equipment"]

/-- The four cyclic mock violation descriptions. -/
def mockViolationDescriptions : List String :=
  ["Insufficient rest period between duties (minimum 12 hours required)",
   "Exceeded maximum duty time limit (14 hours maximum)",
   "Flight time exceeds monthly limit",
   "Missing required qualification for aircraft type"]

/-- The three cyclic mock severities. -/
def mockViolationSeverities : List String :=
  ["High", "Medium", "Low"]

/-- The mock-violation generator of `fetchCrewDetails`: it reads the
`schedule` state variable captured by the closure (the value from before
this run, not the one just fetched) and samples `crewFlights` at the
indices produced by the `Math.random()` stream `rnd` (two draws per
violation; an out-of-range or empty-list draw yields an absent field, as
`crewFlights[...]?.Flight_Number` does). -/
def buildMockViolations (prevSchedule : List CrewSchedule)
    (crewFlights : List FlightAssignment) (rnd : Nat → Nat) :
    List ViolationDetail :=
  match prevSchedule with
  | [] => []
  | s0 :: _ =>
    (List.range s0.violation_count).map (fun i =>
      { type := mockViolationTypes.getD (i % 4) ""
        description := mockViolationDescriptions.getD (i % 4) ""
        severity := mockViolationSeverities.getD (i % 3) ""
        flight_number := (crewFlights.get? (rnd (2 * i))).map (·.Flight_Number)
        date := (crewFlights.get? (rnd (2 * i + 1))).map (·.Date) })

/-- `fetchCrewDetails` (`SystemStatus.tsx` lines 301-387) as a pure state
transformer over the outcomes of its five sequential awaits. The outer
try encloses everything, so a failed crew-list fetch skips all later
steps; the schedule, preferences and roster/assignment steps each sit in
their own inner try whose catch empties only that sub-section; the
history and detail fetches share one try, and an empty or absent
`rosters` list skips the roster step without touching its state. `prev`
is the state captured by the closure, `rnd` the `Math.random()` stream. -/
def fetchCrewDetails (prev : ModalState) (crewId : String)
    (crewR : Except Unit CrewListResponse)
    (schedR : Except Unit ScheduleResponse)
    (prefR : Except Unit PreferencesResponse)
    (histR : Except Unit HistoryResponse)
    (detR : Except Unit RosterDetailResponse)
    (rnd : Nat → Nat) : ModalState :=
  let s0 : ModalState := { prev with loading := true }
  match crewR with
  | .error _ => { s0 with loading := false }
  | .ok crewData =>
    let s1 :=
      match crewData.crew_members.find? (fun c => c.Crew_ID == crewId) with
      | some crew => { s0 with crewDetails := some crew }
      | none => s0
    let s2 :=
      match schedR with
      | .ok d => { s1 with schedule := d.schedules.getD [] }
      | .error _ => { s1 with schedule := [] }
    let s3 :=
      match prefR with
      | .ok d => { s2 with preferences := d.preferences.getD [] }
      | .error _ => { s2 with preferences := [] }
    let s4 :=
      match histR with
      | .error _ => { s3 with flightAssignments := [], violations := [] }
      | .ok rostersData =>
        match rostersData.rosters with
        | some (_ :: _) =>
          match detR with
          | .error _ => { s3 with flightAssignments := [], violations := [] }
          | .ok rosterData =>
            let crewFlights := crewFlightsFor rosterData crewId
            { s3 with
                latestRoster := some rosterData,
                flightAssignments := crewFlights,
                violations := buildMockViolations prev.schedule crewFlights rnd }
        | _ => s3
    { s4 with loading := false }

/-- C1: partial-failure isolation in the crew detail drill-down — when the
profile lookup succeeds and exactly one of the three secondary steps
(schedule history, preferences, latest-roster flight-assignment
derivation) fails, only that sub-section is downgraded to empty: the other
two still populate from their responses and the profile renders. -/
theorem fetchCrewDetails_partial_failure_isolated
    (prev : ModalState) (crewId : String)
    (crewList : List CrewMember) (crew : CrewMember)
    (hfind : crewList.find? (fun c => c.Crew_ID == crewId) = some crew)
    (scheds : List CrewSchedule) (prefs : List CrewPreference)
    (hist : RosterHistoryItem) (histTail : List RosterHistoryItem)
    (det : RosterDetailResponse) (rnd : Nat → Nat) :
    ((fetchCrewDetails prev crewId (.ok ⟨crewList⟩) (.error ())
          (.ok ⟨some prefs⟩) (.ok ⟨some (hist :: histTail)⟩) (.ok det)
          rnd).crewDetails = some crew
      ∧ (fetchCrewDetails prev crewId (.ok ⟨crewList⟩) (.error ())
          (.ok ⟨some prefs⟩) (.ok ⟨some (hist :: histTail)⟩) (.ok det)
          rnd).schedule = []
      ∧ (fetchCrewDetails prev crewId (.ok ⟨crewList⟩) (.error ())
          (.ok ⟨some prefs⟩) (.ok ⟨some (hist :: histTail)⟩) (.ok det)
          rnd).preferences = prefs
      ∧ (fetchCrewDetails prev crewId (.ok ⟨crewList⟩) (.error ())
          (.ok ⟨some prefs⟩) (.ok ⟨some (hist :: histTail)⟩) (.ok det)
          rnd).flightAssignments = crewFlightsFor det crewId)
    ∧ ((fetchCrewDetails prev crewId (.ok ⟨crewList⟩) (.ok ⟨some scheds⟩)
          (.error ()) (.ok ⟨some (hist :: histTail)⟩) (.ok det)
          rnd).crewDetails = some crew
      ∧ (fetchCrewDetails prev crewId (.ok ⟨crewList⟩) (.ok ⟨some scheds⟩)
          (.error ()) (.ok ⟨some (hist :: histTail)⟩) (.ok det)
          rnd).schedule = scheds
      ∧ (fetchCrewDetails prev crewId (.ok ⟨crewList⟩) (.ok ⟨some scheds⟩)
          (.error ()) (.ok ⟨some (hist :: histTail)⟩) (.ok det)
          rnd).preferences = []
      ∧ (fetchCrewDetails prev crewId (.ok ⟨crewList⟩) (.ok ⟨some scheds⟩)
          (.error ()) (.ok ⟨some (hist :: histTail)⟩) (.ok det)
          rnd).flightAssignments = crewFlightsFor det crewId)
    ∧ ((fetchCrewDetails prev crewId (.ok ⟨crewList⟩) (.ok ⟨some scheds⟩)
          (.ok ⟨some prefs⟩) (.error ()) (.ok det)
          rnd).crewDetails = some crew
      ∧ (fetchCrewDetails prev crewId (.ok ⟨crewList⟩) (.ok ⟨some scheds⟩)
          (.ok ⟨some prefs⟩) (.error ()) (.ok det)
          rnd).schedule = scheds
      ∧ (fetchCrewDetails prev crewId (.ok ⟨crewList⟩) (.ok ⟨some scheds⟩)
          (.ok ⟨some prefs⟩) (.error ()) (.ok det)
          rnd).preferences = prefs
      ∧ (fetchCrewDetails prev crewId (.ok ⟨crewList⟩) (.ok ⟨some scheds⟩)
          (.ok ⟨some prefs⟩) (.error ()) (.ok det)
          rnd).flightAssignments = []) := by
  refine ⟨⟨?_, ?_, ?_, ?_⟩, ⟨?_, ?_, ?_, ?_⟩, ⟨?_, ?_, ?_, ?_⟩⟩ <;>
    simp [fetchCrewDetails, hfind]

/-- Witness for C1: with a concrete crew member, schedule row, preference
and roster detail, a failing schedule fetch leaves preferences, flight
assignments and the profile populated. -/
theorem fetchCrewDetails_partial_failure_witness :
    (fetchCrewDetails initialModalState "CP001"
        (.ok ⟨[⟨"CP001", "A", "DEL", "Captain", "LC", "A320neo", none, none⟩]⟩)
        (.error ()) (.ok ⟨some [⟨"day_off", "Sunday", "High"⟩]⟩)
        (.ok ⟨some [⟨1, "c", "s", "e", 0, 0⟩]⟩)
        (.ok ⟨1, some [⟨"2023-10-01", "6E101", "st", "en", "A320neo", "DEL",
          "BOM", "2:00", [⟨"CP001", "Captain"⟩]⟩]⟩)
        (fun _ => 0)).crewDetails
      = some ⟨"CP001", "A", "DEL", "Captain", "LC", "A320neo", none, none⟩
    ∧ (fetchCrewDetails initialModalState "CP001"
        (.ok ⟨[⟨"CP001", "A", "DEL", "Captain", "LC", "A320neo", none, none⟩]⟩)
        (.error ()) (.ok ⟨some [⟨"day_off", "Sunday", "High"⟩]⟩)
        (.ok ⟨some [⟨1, "c", "s", "e", 0, 0⟩]⟩)
        (.ok ⟨1, some [⟨"2023-10-01", "6E101", "st", "en", "A320neo", "DEL",
          "BOM", "2:00", [⟨"CP001", "Captain"⟩]⟩]⟩)
        (fun _ => 0)).schedule = []
    ∧ (fetchCrewDetails initialModalState "CP001"
        (.ok ⟨[⟨"CP001", "A", "DEL", "Captain", "LC", "A320neo", none, none⟩]⟩)
        (.error ()) (.ok ⟨some [⟨"day_off", "Sunday", "High"⟩]⟩)
        (.ok ⟨some [⟨1, "c", "s", "e", 0, 0⟩]⟩)
        (.ok ⟨1, some [⟨"2023-10-01", "6E101", "st", "en", "A320neo", "DEL",
          "BOM", "2:00", [⟨"CP001", "Captain"⟩]⟩]⟩)
        (fun _ => 0)).preferences = [⟨"day_off", "Sunday", "High"⟩]
    ∧ (fetchCrewDetails initialModalState "CP001"
        (.ok ⟨[⟨"CP001", "A", "DEL", "Captain", "LC", "A320neo", none, none⟩]⟩)
        (.error ()) (.ok ⟨some [⟨"day_off", "Sunday", "High"⟩]⟩)
        (.ok ⟨some [⟨1, "c", "s", "e", 0, 0⟩]⟩)
        (.ok ⟨1, some [⟨"2023-10-01", "6E101", "st", "en", "A320neo", "DEL",
          "BOM", "2:00", [⟨"CP001", "Captain"⟩]⟩]⟩)
        (fun _ => 0)).flightAssignments
      = crewFlightsFor ⟨1, some [⟨"2023-10-01", "6E101", "st", "en",
          "A320neo", "DEL", "BOM", "2:00", [⟨"CP001", "Captain"⟩]⟩]⟩ "CP001" :=
  (fetchCrewDetails_partial_failure_isolated initialModalState "CP001"
    [⟨"CP001", "A", "DEL", "Captain", "LC", "A320neo", none, none⟩]
    ⟨"CP001", "A", "DEL", "Captain", "LC", "A320neo", none, none⟩
    (by decide) [] [⟨"day_off", "Sunday", "High"⟩] ⟨1, "c", "s", "e", 0, 0⟩ []
    ⟨1, some [⟨"2023-10-01", "6E101", "st", "en", "A320neo", "DEL", "BOM",
      "2:00", [⟨"CP001", "Captain"⟩]⟩]⟩ (fun _ => 0)).1

/-- Counterexample for C2: the crew-detail fetch has no stale-response
check — after selecting "CP002" (whose fetch resolves first) a still
in-flight fetch issued for the earlier selection "CP001" resolves later
and overwrites the displayed profile with the stale crew member, so
displayed state does not reflect the most recent request. -/
theorem fetchCrewDetails_stale_overwrite_cex :
    (fetchCrewDetails
        (fetchCrewDetails initialModalState "CP002"
          (.ok ⟨[⟨"CP001", "A", "DEL", "Captain", "LC", "A320neo", none, none⟩,
                 ⟨"CP002", "B", "BOM", "Captain", "LC", "A320neo", none, none⟩]⟩)
          (.ok ⟨some []⟩) (.ok ⟨some []⟩) (.ok ⟨some []⟩) (.error ())
          (fun _ => 0))
        "CP001"
        (.ok ⟨[⟨"CP001", "A", "DEL", "Captain", "LC", "A320neo", none, none⟩,
               ⟨"CP002", "B", "BOM", "Captain", "LC", "A320neo", none, none⟩]⟩)
        (.ok ⟨some []⟩) (.ok ⟨some []⟩) (.ok ⟨some []⟩) (.error ())
        (fun _ => 0)).crewDetails
      = some ⟨"CP001", "A", "DEL", "Captain", "LC", "A320neo", none, none⟩
    ∧ ("CP001" : String) ≠ "CP002" := by
  constructor
  · rfl
  · decide

/-- C2 (amended): the crew-detail fetch performs no stale-response
discarding — a resolving fetch always writes its own response into the
displayed state regardless of the state it finds, so the display reflects
whichever response was applied last, even one issued under an earlier
parameter snapshot. -/
theorem fetchCrewDetails_last_response_wins
    (prev : ModalState) (crewId : String)
    (crewList : List CrewMember) (crew : CrewMember)
    (hfind : crewList.find? (fun c => c.Crew_ID == crewId) = some crew)
    (scheds : List CrewSchedule) (prefs : List CrewPreference)
    (detR : Except Unit RosterDetailResponse) (rnd : Nat → Nat) :
    (fetchCrewDetails prev crewId (.ok ⟨crewList⟩) (.ok ⟨some scheds⟩)
        (.ok ⟨some prefs⟩) (.ok ⟨some []⟩) detR rnd).crewDetails = some crew
    ∧ (fetchCrewDetails prev crewId (.ok ⟨crewList⟩) (.ok ⟨some scheds⟩)
        (.ok ⟨some prefs⟩) (.ok ⟨some []⟩) detR rnd).schedule = scheds
    ∧ (fetchCrewDetails prev crewId (.ok ⟨crewList⟩) (.ok ⟨some scheds⟩)
        (.ok ⟨some prefs⟩) (.ok ⟨some []⟩) detR rnd).preferences = prefs := by
  refine ⟨?_, ?_, ?_⟩ <;> simp [fetchCrewDetails, hfind]

/-- Witness for C2 (amended): a response for "CP002" applied over a state
already showing "CP001" overwrites it. -/
theorem fetchCrewDetails_last_response_wins_witness :
    (fetchCrewDetails
        ⟨some ⟨"CP001", "A", "DEL", "Captain", "LC", "A320neo", none, none⟩,
         [], [], [], [], none, false⟩
        "CP002"
        (.ok ⟨[⟨"CP002", "B", "BOM", "Captain", "LC", "A320neo", none, none⟩]⟩)
        (.ok ⟨some []⟩) (.ok ⟨some []⟩) (.ok ⟨some []⟩) (.error ())
        (fun _ => 0)).crewDetails
      = some ⟨"CP002", "B", "BOM", "Captain", "LC", "A320neo", none, none⟩ :=
  (fetchCrewDetails_last_response_wins
    ⟨some ⟨"CP001", "A", "DEL", "Captain", "LC", "A320neo", none, none⟩,
     [], [], [], [], none, false⟩
    "CP002" [⟨"CP002", "B", "BOM", "Captain", "LC", "A320neo", none, none⟩]
    ⟨"CP002", "B", "BOM", "Captain", "LC", "A320neo", none, none⟩
    (by decide) [] [] (.error ()) (fun _ => 0)).1
